import Mathlib

/-!
Verification of the sepex-viewer dashboard (src/app/sepex.py, src/app/helpers.py,
src/app/home.py) against its natural-language specification.  The Python code is
shallowly embedded: JSON payloads become an inductive `Json` type, HTTP responses
become explicit `(status, body)` records, pydantic model validation becomes
`Option`-valued validators, and the pandas aggregation pipeline of
`render_jobs_overview` becomes pure list functions.
-/

namespace SepexViewer

/-- JSON values as produced by `response.json()`. -/
inductive Json where
  | null : Json
  | bool (b : Bool) : Json
  | num (n : Int) : Json
  | str (s : String) : Json
  | arr (items : List Json) : Json
  | obj (fields : List (String × Json)) : Json

/-- Headline KPI counts computed at helpers.py lines 63-75. -/
structure OverviewKpis where
  total : Nat
  successful : Nat
  failed : Nat
  running : Nat
  deriving DecidableEq

/-- Embedding of helpers.py lines 63 and 73-75: `total_jobs = len(display_df)` and the
three boolean-mask row counts `display_df[display_df["status"] == X].shape[0]` for
X in successful/failed/running. -/
def summarize (statuses : List String) : OverviewKpis :=
  ⟨statuses.length,
   (statuses.filter (fun s => s == "successful")).length,
   (statuses.filter (fun s => s == "failed")).length,
   (statuses.filter (fun s => s == "running")).length⟩

/-- Embedding of the dynamic-bucket ladder at helpers.py lines 95-102, with the span
measured in seconds (`pd.Timedelta(days=7)` = 604800 s, etc.). -/
def chooseBucket (spanSeconds : Nat) : String :=
  if 7 * 86400 ≤ spanSeconds then "1d"
  else if 2 * 86400 ≤ spanSeconds then "12h"
  else if 6 * 3600 ≤ spanSeconds then "1h"
  else "15min"

/-- Maximum of a nonempty timestamp list, as `display_df["updated"].max()`. -/
def listMax (t : Nat) (ts : List Nat) : Nat :=
  ts.foldl max t

/-- Minimum of a nonempty timestamp list, as `display_df["updated"].min()`. -/
def listMin (t : Nat) (ts : List Nat) : Nat :=
  ts.foldl min t

/-- helpers.py lines 90-92: `span = max_ts - min_ts` over the parsed timestamps. -/
def overviewSpan (t : Nat) (ts : List Nat) : Nat :=
  listMax t ts - listMin t ts

/-- The bucket width `render_jobs_overview` selects for a nonempty timestamp list. -/
def overviewBucket (t : Nat) (ts : List Nat) : String :=
  chooseBucket (overviewSpan t ts)

/-- Occurrence-count table of `value_counts()` (helpers.py lines 138-139 and 169-170):
one row per distinct value with its multiplicity. -/
def countOccurrences (l : List String) : List (String × Nat) :=
  l.dedup.map (fun v => (v, l.count v))

/-- Descending-count comparison used to order `value_counts()` output. -/
def descByCount (a b : String × Nat) : Bool :=
  decide (b.2 ≤ a.2)

/-- Sort rows by descending count, as `value_counts()` returns them. -/
def sortDescByCount (rows : List (String × Nat)) : List (String × Nat) :=
  rows.mergeSort descByCount

/-- Total of the `count` column of a row table. -/
def sumCounts (rows : List (String × Nat)) : Nat :=
  (rows.map Prod.snd).sum

/-- Embedding of helpers.py lines 141-151 (resp. 172-182): when more than `n` rows
exist, keep the first `n` and append a synthetic `other` row summing the tail. -/
def truncateWithOther (rows : List (String × Nat)) (n : Nat) : List (String × Nat) :=
  if n < rows.length then
    rows.take n ++ [("other", sumCounts (rows.drop n))]
  else rows

/-- Top-N step applied to an already-counted row table (each row one value carrying
its count): sort descending, then truncate with overflow. -/
def topNRows (rows : List (String × Nat)) (n : Nat) : List (String × Nat) :=
  truncateWithOther (sortDescByCount rows) n

/-- The full `topNWithOverflow` pipeline of the spec: `value_counts()` followed by the
top-N truncation of helpers.py lines 141-151. -/
def topNWithOverflow (values : List String) (n : Nat) : List (String × Nat) :=
  topNRows (countOccurrences values) n

/-- Field lookup in a JSON object, as Python dict access (first binding wins). -/
def lookupField (fields : List (String × Json)) (key : String) : Option Json :=
  List.lookup key fields

/-- First array-valued field of a JSON object, scanning values in order
(sepex.py lines 30-33). -/
def firstArrayValue : List (String × Json) → Option (List Json)
  | [] => none
  | (_, Json.arr items) :: _ => some items
  | _ :: rest => firstArrayValue rest

/-- Embedding of sepex.py lines 29-33: when the parsed body is an object, the first
array-valued field replaces it; any other body is left unchanged. -/
def unwrapEnvelope (data : Json) : Json :=
  match data with
  | Json.obj fields =>
      match firstArrayValue fields with
      | some items => Json.arr items
      | none => Json.obj fields
  | other => other

/-- Python iteration over the unwrapped payload: a list yields its elements, a dict
yields its keys, anything else raises TypeError. -/
def iterate : Json → Except String (List Json)
  | Json.arr items => Except.ok items
  | Json.obj fields => Except.ok (fields.map (fun f => Json.str f.1))
  | _ => Except.error "TypeError"

/-- String field value, as pydantic v2 strict str validation. -/
def asString : Json → Option String
  | Json.str s => some s
  | _ => none

/-- Nullable string field value, as pydantic v2 `Optional[str]` (key required,
value a string or null). -/
def asOptString : Json → Option (Option String)
  | Json.null => some none
  | Json.str s => some (some s)
  | _ => none

/-- List-of-strings field value, as pydantic v2 `List[str]`. -/
def asStringList : Json → Option (List String)
  | Json.arr items => items.mapM asString
  | _ => none

/-- Validated Job record (sepex.py lines 87-93); the datetime parse of `updated` is
abstracted as the raw string. -/
structure JobModel where
  jobID : String
  updated : String
  status : String
  processID : String
  type : Option String
  submitter : Option String
  deriving DecidableEq

/-- Pydantic validation of `Job(**item)`: non-dict items raise TypeError, dict items
missing a required field or carrying a wrong type raise ValidationError. -/
def validateJob (j : Json) : Except String JobModel :=
  match j with
  | Json.obj fields =>
      match (do
        let a ← lookupField fields "jobID" >>= asString
        let b ← lookupField fields "updated" >>= asString
        let c ← lookupField fields "status" >>= asString
        let d ← lookupField fields "processID" >>= asString
        let e ← lookupField fields "type" >>= asOptString
        let f ← lookupField fields "submitter" >>= asOptString
        some (JobModel.mk a b c d e f)) with
      | some m => Except.ok m
      | none => Except.error "ValidationError"
  | _ => Except.error "TypeError"

/-- An HTTP response as seen by the client. -/
structure HttpResponse where
  status : Nat
  body : Json

/-- What fetch_table hands back to its caller: a table of validated rows, the Python
None sentinel of the non-200 branch (sepex.py lines 36-38), or an exception escaping
the call. -/
inductive FetchTableResult where
  | rows (rs : List JobModel)
  | nothing
  | raised (msg : String)
  deriving DecidableEq

/-- Embedding of SepexAPI.fetch_table for the Job schema (sepex.py lines 23-38): on
status 200 the body is envelope-unwrapped and every element validated fail-fast;
on any other status the call returns None. -/
def fetch_table (resp : HttpResponse) : FetchTableResult :=
  if resp.status == 200 then
    match iterate (unwrapEnvelope resp.body) with
    | Except.error e => FetchTableResult.raised e
    | Except.ok items =>
        match items.mapM validateJob with
        | Except.ok rs => FetchTableResult.rows rs
        | Except.error e => FetchTableResult.raised e
  else FetchTableResult.nothing

/-- An HTTP request as issued: URL plus the query parameters attached to it. -/
structure HttpRequest where
  url : String
  queryParams : List (String × String)
  deriving DecidableEq

/-- Trailing-slash strip of SepexAPI.__init__ (`base_url.rstrip("/")`). -/
def rstripSlashes (s : String) : String :=
  String.mk (s.data.reverse.dropWhile (fun c => c == '/')).reverse

/-- The request fetch_table issues (sepex.py lines 24-26): the URL is base/endpoint,
and the GET is `requests.get(url)` — the params argument is accepted by the function
but never forwarded, so no query parameters are attached. -/
def fetch_table_request (baseUrl endpoint : String) (params : List (String × String)) :
    HttpRequest :=
  HttpRequest.mk (rstripSlashes baseUrl ++ "/" ++ endpoint) []

/-- The sequence of requests one fetch_table call issues: a single GET, no retry. -/
def fetch_table_requests (baseUrl endpoint : String) (params : List (String × String)) :
    List HttpRequest :=
  [fetch_table_request baseUrl endpoint params]

/-- Validated Process record (sepex.py lines 73-79); `outputTransmission` is
`Optional[Any]`, a required key holding an arbitrary JSON value. -/
structure ProcessRec where
  version : String
  id : String
  title : String
  description : String
  jobControlOptions : List String
  outputTransmission : Json

/-- Pydantic validation of `Process(**p)`: the five typed fields must be present
with string (resp. list-of-string) values. -/
def validateProcess (j : Json) : Option ProcessRec :=
  match j with
  | Json.obj fields => do
      let v ← lookupField fields "version" >>= asString
      let i ← lookupField fields "id" >>= asString
      let t ← lookupField fields "title" >>= asString
      let d ← lookupField fields "description" >>= asString
      let jco ← lookupField fields "jobControlOptions" >>= asStringList
      let ot ← lookupField fields "outputTransmission"
      some (ProcessRec.mk v i t d jco ot)
  | _ => none

/-- What fetch_processes_dict hands back: the dict (as its insertion sequence of
key-record pairs) or an exception escaping the call. -/
inductive DictResult where
  | ok (entries : List (String × ProcessRec))
  | raised (msg : String)

/-- Envelope handling at sepex.py line 65: `data.get("processes", [])` needs the body
to be an object (AttributeError otherwise) and yields the value under "processes",
defaulting to an empty list. -/
def processesField (body : Json) : Except String Json :=
  match body with
  | Json.obj fields =>
      match lookupField fields "processes" with
      | some v => Except.ok v
      | none => Except.ok (Json.arr [])
  | _ => Except.error "AttributeError"

/-- The dict comprehension at sepex.py line 67, evaluated left to right: entries
without an "id" key are skipped; an entry with "id" that fails Process validation
raises; otherwise the pair (id, validated record) is emitted.  Non-dict entries are
outside the claims' scope and modelled as raising. -/
def buildProcessDict : List Json → Except String (List (String × ProcessRec))
  | [] => Except.ok []
  | p :: rest =>
      match p with
      | Json.obj fields =>
          match lookupField fields "id" with
          | none => buildProcessDict rest
          | some _ =>
              match validateProcess (Json.obj fields) with
              | none => Except.error "ValidationError"
              | some pr => do
                  let tail ← buildProcessDict rest
                  pure ((pr.id, pr) :: tail)
      | _ => Except.error "TypeError"

/-- The pair an entry contributes to the processes dict, when it contributes one:
it must be an object, have an "id" key, and pass Process validation. -/
def entryPair (p : Json) : Option (String × ProcessRec) :=
  match p with
  | Json.obj fields =>
      match lookupField fields "id", validateProcess (Json.obj fields) with
      | some _, some pr => some (pr.id, pr)
      | _, _ => none
  | _ => none

/-- Embedding of SepexAPI.fetch_processes_dict (sepex.py lines 59-70): on any status
other than 200 it returns the empty dict; on 200 it builds the dict keyed by process
id from the "processes" array. -/
def fetch_processes_dict (resp : HttpResponse) : DictResult :=
  if resp.status == 200 then
    match processesField resp.body with
    | Except.error e => DictResult.raised e
    | Except.ok ps =>
        match ps with
        | Json.arr items =>
            match buildProcessDict items with
            | Except.ok entries => DictResult.ok entries
            | Except.error e => DictResult.raised e
        | _ => DictResult.raised "TypeError"
  else DictResult.ok []

/-- Validated image identity of the metadata response (sepex.py lines 155-157). -/
structure ImageInfoRec where
  imageDigest : String
  imageURI : String

/-- Validated process identity of the metadata response (sepex.py lines 160-162). -/
structure ProcessMetaRec where
  processId : String
  processVersion : String

/-- Validated JobMetadataResponse record (sepex.py lines 165-173). -/
structure JobMetadataRec where
  context : String
  apiJobId : String
  commands : List String
  endedAtTime : String
  generatedAtTime : String
  image : ImageInfoRec
  process : ProcessMetaRec
  startedAtTime : String

/-- Pydantic validation of ImageInfo. -/
def validateImageInfo (j : Json) : Option ImageInfoRec :=
  match j with
  | Json.obj fields => do
      let d ← lookupField fields "imageDigest" >>= asString
      let u ← lookupField fields "imageURI" >>= asString
      some (ImageInfoRec.mk d u)
  | _ => none

/-- Pydantic validation of ProcessMeta. -/
def validateProcessMeta (j : Json) : Option ProcessMetaRec :=
  match j with
  | Json.obj fields => do
      let i ← lookupField fields "processId" >>= asString
      let v ← lookupField fields "processVersion" >>= asString
      some (ProcessMetaRec.mk i v)
  | _ => none

/-- Pydantic validation of `JobMetadataResponse(**raw)`. -/
def validateJobMetadata (j : Json) : Option JobMetadataRec :=
  match j with
  | Json.obj fields => do
      let c ← lookupField fields "context" >>= asString
      let a ← lookupField fields "apiJobId" >>= asString
      let cm ← lookupField fields "commands" >>= asStringList
      let e ← lookupField fields "endedAtTime" >>= asString
      let g ← lookupField fields "generatedAtTime" >>= asString
      let im ← lookupField fields "image" >>= validateImageInfo
      let pr ← lookupField fields "process" >>= validateProcessMeta
      let s ← lookupField fields "startedAtTime" >>= asString
      some (JobMetadataRec.mk c a cm e g im pr s)
  | _ => none

/-- One network attempt in the metadata loop: the GET either raises a transport
exception or returns a status and body. -/
inductive CallOutcome where
  | exn (msg : String)
  | resp (status : Nat) (body : Json)

/-- The metadata payload handed to st.json: the validated model dump, or the raw body
when validation fails (home.py lines 258-262). -/
inductive MetaPayload where
  | typed (m : JobMetadataRec)
  | raw (j : Json)

/-- Loop state of the metadata branch (home.py lines 244-263), extended with the
number of requests attempted. -/
structure MetaFetchState where
  meta_data : Option MetaPayload
  last_status : Option Nat
  last_error : Option String
  calls : Nat

/-- home.py lines 258-262: try the typed model, fall back to the raw body. -/
def parseMetadata (raw : Json) : MetaPayload :=
  match validateJobMetadata raw with
  | some m => MetaPayload.typed m
  | none => MetaPayload.raw raw

/-- Embedding of the for-loop at home.py lines 248-263: an exception records
last_error and continues; a response records last_status; a 200 parses the body and
breaks; anything else continues to the next URL. -/
def metadataLoop : List CallOutcome → MetaFetchState → MetaFetchState
  | [], s => s
  | CallOutcome.exn e :: rest, s =>
      metadataLoop rest (MetaFetchState.mk s.meta_data s.last_status (some e) (s.calls + 1))
  | CallOutcome.resp status body :: rest, s =>
      if status == 200 then
        MetaFetchState.mk (some (parseMetadata body)) (some status) s.last_error (s.calls + 1)
      else
        metadataLoop rest (MetaFetchState.mk s.meta_data (some status) s.last_error (s.calls + 1))

/-- The metadata fetch over the outcome each attempted URL would produce; the URL
order is primary /jobs/{id}/metadata, then fallback /jobs/{id}. -/
def fetchMetadata (outcomes : List CallOutcome) : MetaFetchState :=
  metadataLoop outcomes (MetaFetchState.mk none none none 0)

/-- What the metadata panel reports (home.py lines 265-273): the payload on success,
otherwise the last error with priority over the last status. -/
inductive MetaReport where
  | success (payload : MetaPayload)
  | lastErrorMsg (e : String)
  | lastStatusMsg (status : Nat)
  | unknownError

/-- home.py lines 265-273 as a function of the final loop state. -/
def metadataReport (s : MetaFetchState) : MetaReport :=
  match s.meta_data with
  | some m => MetaReport.success m
  | none =>
      match s.last_error with
      | some e => MetaReport.lastErrorMsg e
      | none =>
          match s.last_status with
          | some st => MetaReport.lastStatusMsg st
          | none => MetaReport.unknownError

/-- Whether an attempt is a 200 response. -/
def isOk200 : CallOutcome → Bool
  | CallOutcome.resp status _ => status == 200
  | _ => false

/-- Modelled from the spec sentence "report the last observed status/error if both
fail", read chronologically: the failure observation of the last attempted call. -/
def specLastObserved : List CallOutcome → Option MetaReport
  | [] => none
  | [CallOutcome.exn e] => some (MetaReport.lastErrorMsg e)
  | [CallOutcome.resp status _] => some (MetaReport.lastStatusMsg status)
  | _ :: rest => specLastObserved rest

/-- What the code actually reports when both calls fail: the last observed transport
error when any call raised, otherwise the last observed status. -/
def expectedFailureReport : CallOutcome → CallOutcome → MetaReport
  | _, CallOutcome.exn e => MetaReport.lastErrorMsg e
  | CallOutcome.exn e, CallOutcome.resp _ _ => MetaReport.lastErrorMsg e
  | CallOutcome.resp _ _, CallOutcome.resp status _ => MetaReport.lastStatusMsg status

/-- A job record as `render_jobs_overview` receives it (a row of the jobs table),
with the `updated` timestamp already parsed to seconds when present. -/
structure JobRec where
  jobID : String
  updated : Option Nat
  status : String
  processID : String
  submitter : Option String

/-- The visible outcome of `render_jobs_overview`: the explicit no-data indicator of
helpers.py lines 53-55, the no-timestamp branch of lines 201-203 (KPIs only), or the
full KPIs-plus-charts render. -/
inductive OverviewRender where
  | noData (msg : String)
  | noTimestamps (kpis : OverviewKpis) (msg : String)
  | charts (kpis : OverviewKpis) (bucket : String)
      (processRows : List (String × Nat)) (submitterRows : List (String × Nat))

/-- helpers.py line 136: `process_map.get(x, x)` — map a processID to its title,
falling back to the raw id. -/
def lookupTitle (processMap : List (String × String)) (pid : String) : String :=
  match List.lookup pid processMap with
  | some title => title
  | none => pid

/-- Embedding of render_jobs_overview (helpers.py lines 43-203): empty input renders
the no-data indicator and returns; otherwise KPIs are computed, and with at least one
parsed timestamp the bucketed time series and the two top-10 breakdowns render. -/
def render_jobs_overview (jobs : List JobRec) (processMap : List (String × String)) :
    OverviewRender :=
  match jobs with
  | [] => OverviewRender.noData "No jobs available for overview charts."
  | _ =>
      let kpis := summarize (jobs.map (fun j => j.status))
      match jobs.filterMap (fun j => j.updated) with
      | [] => OverviewRender.noTimestamps kpis "No timestamped jobs to chart."
      | t :: ts =>
          OverviewRender.charts kpis (chooseBucket (overviewSpan t ts))
            (topNWithOverflow (jobs.map (fun j => lookupTitle processMap j.processID)) 10)
            (topNWithOverflow (jobs.filterMap (fun j => j.submitter)) 10)

/-- Sample fully valid process entry, used to exercise fetch_processes_dict. -/
def sampleProcessEntry : Json :=
  Json.obj [("version", Json.str "1"), ("id", Json.str "p1"), ("title", Json.str "T"),
    ("description", Json.str "D"), ("jobControlOptions", Json.arr []),
    ("outputTransmission", Json.null)]

/-- Sample process entry lacking an "id" key. -/
def sampleEntryNoId : Json :=
  Json.obj [("title", Json.str "anon")]

theorem descByCount_trans :
    ∀ a b c : String × Nat,
      descByCount a b = true → descByCount b c = true → descByCount a c = true := by
  intro a b c hab hbc
  simp only [descByCount, decide_eq_true_eq] at *
  omega

theorem descByCount_total :
    ∀ a b : String × Nat, (descByCount a b || descByCount b a) = true := by
  intro a b
  simp only [descByCount, Bool.or_eq_true, decide_eq_true_eq]
  omega

theorem sortDescByCount_perm (rows : List (String × Nat)) :
    (sortDescByCount rows).Perm rows :=
  List.mergeSort_perm rows descByCount

theorem sortDescByCount_sorted (rows : List (String × Nat)) :
    List.Pairwise (fun a b : String × Nat => b.2 ≤ a.2) (sortDescByCount rows) := by
  have h := List.sorted_mergeSort descByCount_trans descByCount_total rows
  refine h.imp ?_
  intro a b hab
  simpa [descByCount] using hab

theorem sumCounts_countOccurrences (values : List String) :
    sumCounts (countOccurrences values) = values.length := by
  simpa [sumCounts, countOccurrences, List.map_map, Function.comp]
    using List.sum_map_count_dedup_eq_length values

theorem length_countOccurrences (values : List String) :
    (countOccurrences values).length = values.dedup.length := by
  simp [countOccurrences]

theorem sumCounts_append (a b : List (String × Nat)) :
    sumCounts (a ++ b) = sumCounts a + sumCounts b := by
  simp [sumCounts]

theorem sumCounts_sortDescByCount (rows : List (String × Nat)) :
    sumCounts (sortDescByCount rows) = sumCounts rows := by
  exact ((sortDescByCount_perm rows).map Prod.snd).sum_eq

theorem length_sortDescByCount (rows : List (String × Nat)) :
    (sortDescByCount rows).length = rows.length :=
  (sortDescByCount_perm rows).length_eq

/-- C6: on `[successful, failed, successful]` the overview KPIs are total 3,
successful 2, failed 1, running 0; in general `total` is the list length and each
headline count is the number of jobs whose status equals that exact string. -/
theorem summarize_status_counts :
    summarize ["successful", "failed", "successful"] = ⟨3, 2, 1, 0⟩ ∧
    ∀ statuses : List String,
      (summarize statuses).total = statuses.length ∧
      (summarize statuses).successful = statuses.count "successful" ∧
      (summarize statuses).failed = statuses.count "failed" ∧
      (summarize statuses).running = statuses.count "running" := by
  constructor
  · decide
  · intro statuses
    refine ⟨rfl, ?_, ?_, ?_⟩ <;>
      simp [summarize, List.count, List.countP_eq_length_filter]

/-- C2: the bucket width is chosen from the span between the earliest and latest
timestamp: at least 7 days gives 1-day buckets, at least 2 days gives 12-hour
buckets, at least 6 hours gives 1-hour buckets, otherwise 15-minute buckets; the
6-hour boundary is inclusive on the 1-hour side. -/
theorem overview_bucket_selection (t : Nat) (ts : List Nat) :
    (7 * 86400 ≤ overviewSpan t ts → overviewBucket t ts = "1d") ∧
    (2 * 86400 ≤ overviewSpan t ts ∧ overviewSpan t ts < 7 * 86400 →
      overviewBucket t ts = "12h") ∧
    (6 * 3600 ≤ overviewSpan t ts ∧ overviewSpan t ts < 2 * 86400 →
      overviewBucket t ts = "1h") ∧
    (overviewSpan t ts < 6 * 3600 → overviewBucket t ts = "15min") ∧
    (overviewSpan t ts = 6 * 3600 → overviewBucket t ts = "1h") := by
  unfold overviewBucket chooseBucket
  refine ⟨?_, ?_, ?_, ?_, ?_⟩ <;> intro h <;>
    first
      | (rw [if_pos (by omega)])
      | (rw [if_neg (by omega), if_pos (by omega)])
      | (rw [if_neg (by omega), if_neg (by omega), if_pos (by omega)])
      | (rw [if_neg (by omega), if_neg (by omega), if_neg (by omega)])

theorem overview_bucket_selection_witness :
    overviewBucket 0 [21600] = "1h" :=
  (overview_bucket_selection 0 [21600]).2.2.2.2 (by decide)

/-- C1: on a multiset with more than 10 distinct values, the top-10-with-overflow
breakdown returns exactly 11 rows, the returned counts sum to the input size, the
final row is the synthetic `other` row carrying the excluded tail's total, and every
kept row's count is at least every excluded row's count. -/
theorem topN_overflow_spec (values : List String) (h : 10 < values.dedup.length) :
    (topNWithOverflow values 10).length = 11 ∧
    sumCounts (topNWithOverflow values 10) = values.length ∧
    (topNWithOverflow values 10).getLast? =
      some ("other",
        values.length - sumCounts ((sortDescByCount (countOccurrences values)).take 10)) ∧
    ∀ kept ∈ (sortDescByCount (countOccurrences values)).take 10,
      ∀ dropped ∈ (sortDescByCount (countOccurrences values)).drop 10,
        dropped.2 ≤ kept.2 := by
  have hslen : (sortDescByCount (countOccurrences values)).length = values.dedup.length := by
    rw [length_sortDescByCount, length_countOccurrences]
  have h10 : 10 < (sortDescByCount (countOccurrences values)).length := by omega
  have hsum : sumCounts (sortDescByCount (countOccurrences values)) = values.length := by
    rw [sumCounts_sortDescByCount, sumCounts_countOccurrences]
  have hsplit :
      sumCounts ((sortDescByCount (countOccurrences values)).take 10) +
        sumCounts ((sortDescByCount (countOccurrences values)).drop 10) = values.length := by
    rw [← sumCounts_append, List.take_append_drop, hsum]
  have hunfold : topNWithOverflow values 10
      = (sortDescByCount (countOccurrences values)).take 10 ++
        [("other", sumCounts ((sortDescByCount (countOccurrences values)).drop 10))] := by
    unfold topNWithOverflow topNRows truncateWithOther
    rw [if_pos h10]
  refine ⟨?_, ?_, ?_, ?_⟩
  · rw [hunfold]
    simp only [List.length_append, List.length_take, List.length_cons, List.length_nil]
    omega
  · rw [hunfold, sumCounts_append]
    have hone : sumCounts [("other",
        sumCounts ((sortDescByCount (countOccurrences values)).drop 10))]
        = sumCounts ((sortDescByCount (countOccurrences values)).drop 10) := by
      simp [sumCounts]
    omega
  · rw [hunfold, List.getLast?_concat]
    have hdrop : sumCounts ((sortDescByCount (countOccurrences values)).drop 10)
        = values.length -
          sumCounts ((sortDescByCount (countOccurrences values)).take 10) := by
      omega
    rw [hdrop]
  · have hpw := sortDescByCount_sorted (countOccurrences values)
    rw [← List.take_append_drop 10 (sortDescByCount (countOccurrences values))] at hpw
    exact fun kept hk dropped hd => (List.pairwise_append.mp hpw).2.2 kept hk dropped hd

theorem topN_overflow_spec_witness :
    (10 < (["a", "b", "c", "d", "e", "f", "g", "h", "i", "j", "k"] : List String).dedup.length) ∧
    (topNWithOverflow ["a", "b", "c", "d", "e", "f", "g", "h", "i", "j", "k"] 10).length = 11 ∧
    sumCounts (topNWithOverflow ["a", "b", "c", "d", "e", "f", "g", "h", "i", "j", "k"] 10)
      = (["a", "b", "c", "d", "e", "f", "g", "h", "i", "j", "k"] : List String).length :=
  ⟨by decide,
   (topN_overflow_spec ["a", "b", "c", "d", "e", "f", "g", "h", "i", "j", "k"] (by decide)).1,
   (topN_overflow_spec ["a", "b", "c", "d", "e", "f", "g", "h", "i", "j", "k"] (by decide)).2.1⟩

/-- C3: on a multiset with at most 10 distinct values, the top-10-with-overflow
breakdown returns one row per distinct value carrying its occurrence count, adds no
synthetic `other` row, and is idempotent: re-running the top-N step on its own output,
each row taken as one occurrence carrying its count, returns the output unchanged. -/
theorem topN_no_overflow_idempotent (values : List String) (h : values.dedup.length ≤ 10) :
    (topNWithOverflow values 10).length = values.dedup.length ∧
    (topNWithOverflow values 10).Perm (countOccurrences values) ∧
    (∀ r ∈ topNWithOverflow values 10, r.1 ∈ values ∧ r.2 = values.count r.1) ∧
    (("other" : String) ∉ values → ∀ r ∈ topNWithOverflow values 10, r.1 ≠ "other") ∧
    topNRows (topNWithOverflow values 10) 10 = topNWithOverflow values 10 := by
  have hslen : (sortDescByCount (countOccurrences values)).length = values.dedup.length := by
    rw [length_sortDescByCount, length_countOccurrences]
  have h10 : ¬ (10 < (sortDescByCount (countOccurrences values)).length) := by omega
  have hunfold : topNWithOverflow values 10 = sortDescByCount (countOccurrences values) := by
    unfold topNWithOverflow topNRows truncateWithOther
    rw [if_neg h10]
  have hperm : (topNWithOverflow values 10).Perm (countOccurrences values) := by
    rw [hunfold]; exact sortDescByCount_perm _
  have hrows : ∀ r ∈ topNWithOverflow values 10, r.1 ∈ values ∧ r.2 = values.count r.1 := by
    intro r hr
    have hr' : r ∈ countOccurrences values := hperm.subset hr
    obtain ⟨v, hv, rfl⟩ := List.mem_map.mp hr'
    exact ⟨List.mem_dedup.mp hv, rfl⟩
  refine ⟨by rw [hunfold, hslen], hperm, hrows, ?_, ?_⟩
  · intro hother r hr hbad
    exact hother (hbad ▸ (hrows r hr).1)
  · have hsorted : List.Pairwise (fun a b : String × Nat => descByCount a b = true)
        (topNWithOverflow values 10) := by
      rw [hunfold]
      refine (sortDescByCount_sorted (countOccurrences values)).imp ?_
      intro a b hab
      simpa [descByCount] using hab
    have hfix : sortDescByCount (topNWithOverflow values 10) = topNWithOverflow values 10 :=
      List.mergeSort_of_sorted hsorted
    unfold topNRows truncateWithOther
    rw [hfix, if_neg (by rw [hunfold]; omega)]

theorem topN_no_overflow_idempotent_witness :
    (["a", "b", "a"] : List String).dedup.length ≤ 10 ∧
    (topNWithOverflow ["a", "b", "a"] 10).length
      = (["a", "b", "a"] : List String).dedup.length ∧
    topNRows (topNWithOverflow ["a", "b", "a"] 10) 10 = topNWithOverflow ["a", "b", "a"] 10 :=
  ⟨by decide,
   (topN_no_overflow_idempotent ["a", "b", "a"] (by decide)).1,
   (topN_no_overflow_idempotent ["a", "b", "a"] (by decide)).2.2.2.2⟩

/-- C4: the collection fetch extracts the same records from the enveloped response
with the array under the "jobs" key as from the bare array itself, because the
object case takes the first array-valued field as the collection. -/
theorem envelope_unwrapping_equiv (a : List Json) :
    unwrapEnvelope (Json.obj [("jobs", Json.arr a)]) = Json.arr a ∧
    fetch_table (HttpResponse.mk 200 (Json.obj [("jobs", Json.arr a)]))
      = fetch_table (HttpResponse.mk 200 (Json.arr a)) :=
  ⟨rfl, rfl⟩

/-- C7 (refuting evaluation): the /jobs listing request built from the caller-supplied
limit/offset parameters of home.py line 27 carries no query parameters at all — the
params argument is dropped before the GET is issued. -/
theorem fetch_table_request_drops_params :
    (fetch_table_request "http://localhost:5050" "jobs"
        [("limit", "500"), ("offset", "0")]).queryParams = [] ∧
    (fetch_table_request "http://localhost:5050" "jobs"
        [("limit", "500"), ("offset", "0")]).queryParams
      ≠ [("limit", "500"), ("offset", "0")] := by
  exact ⟨rfl, by decide⟩

/-- C8 counterexample: two different non-success statuses yield the very same caller
result (the Python None sentinel), so the returned failure cannot carry the observed
status code as `FetchFailed{status}` would. -/
theorem fetch_table_no_status_counterexample :
    fetch_table (HttpResponse.mk 500 Json.null) = FetchTableResult.nothing ∧
    fetch_table (HttpResponse.mk 503 Json.null) = FetchTableResult.nothing ∧
    (500 : Nat) ≠ 503 :=
  ⟨rfl, rfl, by decide⟩

/-- C8 amended: on any status other than 200 the collection fetch returns the bare
None sentinel, which carries no status and is distinct from a successful empty
collection, and every fetch issues exactly one request — no retry. -/
theorem fetch_table_failure_amended (resp : HttpResponse) (h : resp.status ≠ 200) :
    fetch_table resp = FetchTableResult.nothing ∧
    FetchTableResult.nothing ≠ FetchTableResult.rows [] ∧
    fetch_table (HttpResponse.mk 200 (Json.arr [])) = FetchTableResult.rows [] ∧
    ∀ b e p, (fetch_table_requests b e p).length = 1 := by
  refine ⟨?_, by decide, rfl, fun b e p => rfl⟩
  have hb : (resp.status == 200) = false := by simpa using h
  simp [fetch_table, hb]

theorem fetch_table_failure_amended_witness :
    (HttpResponse.mk 404 Json.null).status ≠ 200 ∧
    fetch_table (HttpResponse.mk 404 Json.null) = FetchTableResult.nothing :=
  ⟨by decide, (fetch_table_failure_amended (HttpResponse.mk 404 Json.null) (by decide)).1⟩

/-- C5 counterexample: when the primary call raises a transport error and the
fallback returns a non-200 status, both calls fail but the panel reports the earlier
transport error, not the last observed status 500 — the code gives errors priority
over statuses rather than reporting the chronologically last observation. -/
theorem metadata_last_observed_counterexample :
    (fetchMetadata
        [CallOutcome.exn "connection refused", CallOutcome.resp 500 Json.null]).meta_data
      = none ∧
    metadataReport (fetchMetadata
        [CallOutcome.exn "connection refused", CallOutcome.resp 500 Json.null])
      = MetaReport.lastErrorMsg "connection refused" ∧
    specLastObserved [CallOutcome.exn "connection refused", CallOutcome.resp 500 Json.null]
      = some (MetaReport.lastStatusMsg 500) ∧
    MetaReport.lastErrorMsg "connection refused" ≠ MetaReport.lastStatusMsg 500 := by
  refine ⟨rfl, rfl, rfl, by simp⟩

/-- C5 amended: any non-200 outcome of the primary metadata call triggers exactly one
fallback call (two requests in total); a 200 from the fallback yields a successful
result with no further calls; when both calls fail the panel reports the last
observed transport error if any call raised, otherwise the last observed status. -/
theorem metadata_fallback_amended (primary secondary : CallOutcome)
    (h : isOk200 primary = false) :
    (fetchMetadata [primary, secondary]).calls = 2 ∧
    (∀ body, secondary = CallOutcome.resp 200 body →
      (fetchMetadata [primary, secondary]).meta_data = some (parseMetadata body)) ∧
    (isOk200 secondary = false →
      metadataReport (fetchMetadata [primary, secondary])
        = expectedFailureReport primary secondary) := by
  cases primary with
  | exn e =>
      cases secondary with
      | exn e2 =>
          refine ⟨rfl, ?_, fun _ => rfl⟩
          intro b hb
          cases hb
      | resp st b =>
          by_cases hst : st = 200
          · subst hst
            refine ⟨rfl, ?_, ?_⟩
            · intro body hb
              injection hb with h1 h2
              subst h2
              rfl
            · intro hf
              simp [isOk200] at hf
          · have hbe : (st == 200) = false := by simpa using hst
            refine ⟨?_, ?_, ?_⟩
            · simp [fetchMetadata, metadataLoop, hbe]
            · intro body hb
              injection hb with h1 h2
              exact absurd h1 hst
            · intro _
              simp [fetchMetadata, metadataLoop, hbe, metadataReport, expectedFailureReport]
  | resp st1 b1 =>
      have h1 : (st1 == 200) = false := by simpa [isOk200] using h
      cases secondary with
      | exn e2 =>
          refine ⟨?_, ?_, ?_⟩
          · simp [fetchMetadata, metadataLoop, h1]
          · intro body hb
            cases hb
          · intro _
            simp [fetchMetadata, metadataLoop, h1, metadataReport, expectedFailureReport]
      | resp st2 b2 =>
          by_cases hst2 : st2 = 200
          · subst hst2
            refine ⟨?_, ?_, ?_⟩
            · simp [fetchMetadata, metadataLoop, h1]
            · intro body hb
              injection hb with hh1 hh2
              subst hh2
              simp [fetchMetadata, metadataLoop, h1]
            · intro hf
              simp [isOk200] at hf
          · have hbe2 : (st2 == 200) = false := by simpa using hst2
            refine ⟨?_, ?_, ?_⟩
            · simp [fetchMetadata, metadataLoop, h1, hbe2]
            · intro body hb
              injection hb with hh1 hh2
              exact absurd hh1 hst2
            · intro _
              simp [fetchMetadata, metadataLoop, h1, hbe2, metadataReport,
                expectedFailureReport]

theorem metadata_fallback_amended_witness :
    isOk200 (CallOutcome.resp 404 Json.null) = false ∧
    (fetchMetadata [CallOutcome.resp 404 Json.null, CallOutcome.resp 200 Json.null]).calls
      = 2 ∧
    (fetchMetadata
        [CallOutcome.resp 404 Json.null, CallOutcome.resp 200 Json.null]).meta_data
      = some (parseMetadata Json.null) :=
  ⟨rfl,
   (metadata_fallback_amended (CallOutcome.resp 404 Json.null)
     (CallOutcome.resp 200 Json.null) rfl).1,
   (metadata_fallback_amended (CallOutcome.resp 404 Json.null)
     (CallOutcome.resp 200 Json.null) rfl).2.1 Json.null rfl⟩

/-- C9: the empty job list renders the explicit no-data indicator and returns
normally, whatever the process map; the no-data constructor carries no KPIs and no
charts. -/
theorem render_jobs_overview_empty (processMap : List (String × String)) :
    render_jobs_overview [] processMap
      = OverviewRender.noData "No jobs available for overview charts." :=
  rfl

theorem buildProcessDict_spec : ∀ items : List Json,
    (∀ p ∈ items, ∃ fields, p = Json.obj fields) →
    (∀ p ∈ items, (∃ fields, p = Json.obj fields ∧ (lookupField fields "id").isSome) →
      (validateProcess p).isSome) →
    buildProcessDict items = Except.ok (items.filterMap entryPair)
  | [], _, _ => rfl
  | p :: rest, hobj, hvalid => by
      obtain ⟨fields, rfl⟩ := hobj p (List.mem_cons_self p rest)
      have hobj' : ∀ q ∈ rest, ∃ fs, q = Json.obj fs :=
        fun q hq => hobj q (List.mem_cons_of_mem _ hq)
      have hvalid' : ∀ q ∈ rest,
          (∃ fs, q = Json.obj fs ∧ (lookupField fs "id").isSome) →
          (validateProcess q).isSome :=
        fun q hq => hvalid q (List.mem_cons_of_mem _ hq)
      have ih := buildProcessDict_spec rest hobj' hvalid'
      cases hid : lookupField fields "id" with
      | none =>
          have hep : entryPair (Json.obj fields) = none := by
            simp [entryPair, hid]
          simp [buildProcessDict, hid, List.filterMap_cons, hep, ih]
      | some idv =>
          have hv : (validateProcess (Json.obj fields)).isSome :=
            hvalid _ (List.mem_cons_self _ _) ⟨fields, rfl, by simp [hid]⟩
          obtain ⟨pr, hpr⟩ := Option.isSome_iff_exists.mp hv
          have hep : entryPair (Json.obj fields) = some (pr.id, pr) := by
            simp [entryPair, hid, hpr]
          simp [buildProcessDict, hid, hpr, List.filterMap_cons, hep, ih]

/-- C10 counterexample: a 200 response whose "processes" array holds an entry that
has an "id" key but is otherwise malformed makes fetch_processes_dict raise a
ValidationError instead of returning a dict containing that entry. -/
theorem fetch_processes_dict_counterexample :
    fetch_processes_dict (HttpResponse.mk 200
        (Json.obj [("processes", Json.arr [Json.obj [("id", Json.str "x")]])]))
      = DictResult.raised "ValidationError" ∧
    DictResult.raised "ValidationError" ≠ DictResult.ok [] := by
  refine ⟨rfl, by simp⟩

/-- C10 amended: fetch_processes_dict never returns the Python None: on any status
other than 200 it returns the empty dict, and on a 200 response whose "processes"
entries are objects and whose id-bearing entries all pass Process validation it
returns the dict keyed by process id containing exactly the id-bearing entries in
order — entries lacking "id" are silently dropped. -/
theorem fetch_processes_dict_amended (resp : HttpResponse) (items : List Json)
    (hstatus : resp.status = 200)
    (hbody : processesField resp.body = Except.ok (Json.arr items))
    (hobj : ∀ p ∈ items, ∃ fields, p = Json.obj fields)
    (hvalid : ∀ p ∈ items,
      (∃ fields, p = Json.obj fields ∧ (lookupField fields "id").isSome) →
      (validateProcess p).isSome) :
    fetch_processes_dict resp = DictResult.ok (items.filterMap entryPair) ∧
    ∀ failing : HttpResponse, failing.status ≠ 200 →
      fetch_processes_dict failing = DictResult.ok [] := by
  constructor
  · have hb : (resp.status == 200) = true := by simp [hstatus]
    simp [fetch_processes_dict, hb, hbody, buildProcessDict_spec items hobj hvalid]
  · intro failing hf
    have hb : (failing.status == 200) = false := by simpa using hf
    simp [fetch_processes_dict, hb]

theorem fetch_processes_dict_amended_witness :
    fetch_processes_dict (HttpResponse.mk 200
        (Json.obj [("processes", Json.arr [sampleProcessEntry, sampleEntryNoId])]))
      = DictResult.ok [("p1", ProcessRec.mk "1" "p1" "T" "D" [] Json.null)] := by
  have hobj : ∀ p ∈ [sampleProcessEntry, sampleEntryNoId], ∃ fields, p = Json.obj fields := by
    intro p hp
    simp only [List.mem_cons, List.not_mem_nil, or_false] at hp
    rcases hp with rfl | rfl
    · exact ⟨_, rfl⟩
    · exact ⟨_, rfl⟩
  have hvalid : ∀ p ∈ [sampleProcessEntry, sampleEntryNoId],
      (∃ fields, p = Json.obj fields ∧ (lookupField fields "id").isSome) →
      (validateProcess p).isSome := by
    intro p hp hex
    simp only [List.mem_cons, List.not_mem_nil, or_false] at hp
    rcases hp with rfl | rfl
    · rfl
    · obtain ⟨fields, heq, hsome⟩ := hex
      have hfe : Json.obj [("title", Json.str "anon")] = Json.obj fields := heq
      injection hfe with hf
      subst hf
      exact absurd hsome (by decide)
  have h := (fetch_processes_dict_amended
      (HttpResponse.mk 200
        (Json.obj [("processes", Json.arr [sampleProcessEntry, sampleEntryNoId])]))
      [sampleProcessEntry, sampleEntryNoId] rfl rfl hobj hvalid).1
  exact h.trans (by rfl)
